import Mathlib

/-!
Verification of the story-twister client against its specification.

The definitions below are a shallow embedding of the TypeScript source:
browser localStorage becomes an association list, the React hooks
useTimer and usePoll become explicit step functions iterated with
Function.iterate, and the fetch-based API client becomes pure functions
from a storage snapshot and a response value to an outcome.  Each
definition names the source function it embeds.
-/

namespace StoryTwister

/-- Browser localStorage modelled as an association list from keys to the
stored strings; the most recent write for a key shadows older entries. -/
abbrev Store := List (String × String)

/-- localStorage.getItem: the stored string for the key, or none. -/
def getItem (store : Store) (key : String) : Option String :=
  (List.find? (fun p => p.1 == key) store).map (fun p => p.2)

/-- localStorage.setItem: record the value for the key (success path of the
try/catch; the caught-failure path leaves the store unchanged and is not
reachable in this pure model). -/
def setItem (store : Store) (key value : String) : Store :=
  (key, value) :: store

/-- JavaScript string-or-default: v or d where none and the empty string
are falsy, as in the source expressions of the form x or-else default. -/
def jsOrStr (v : Option String) (d : String) : String :=
  match v with
  | none => d
  | some s => if s = "" then d else s

/-- The ECMAScript TrimString whitespace set, by code point: WhiteSpace
(TAB, VT, FF, SP, NBSP, ZWNBSP and the Unicode Zs space separators
U+1680, U+2000 to U+200A, U+202F, U+205F, U+3000) together with the
LineTerminator characters (LF, CR, LS, PS). -/
def jsWhitespace (c : Char) : Bool :=
  let n := c.toNat
  n == 0x9 || n == 0xA || n == 0xB || n == 0xC || n == 0xD ||
  n == 0x20 || n == 0xA0 || n == 0x1680 ||
  (decide (0x2000 ≤ n) && decide (n ≤ 0x200A)) ||
  n == 0x2028 || n == 0x2029 || n == 0x202F || n == 0x205F ||
  n == 0x3000 || n == 0xFEFF

/-- JavaScript String.prototype.trim: drop the ECMAScript whitespace set
from both ends; written by structural recursion over the character list
so that it evaluates inside the kernel. -/
def jsTrim (s : String) : String :=
  String.mk
    (((s.data.dropWhile jsWhitespace).reverse.dropWhile
      jsWhitespace).reverse)

/-- Embeds getStorageValue (src/frontend2/src/api/client.ts lines 19-27):
returns the stored string when present and non-blank, null (none)
otherwise; the underlying-failure catch degrades to none as well, so the
function is total and never throws. -/
def getStorageValue (store : Store) (key : String) : Option String :=
  match getItem store key with
  | none => none
  | some value => if value ≠ "" ∧ jsTrim value ≠ "" then some value else none

/-- Embeds setStorageValue (client.ts lines 32-38): best-effort write. -/
def setStorageValue (store : Store) (key value : String) : Store :=
  setItem store key value

/-! ## Countdown timer (useTimer, src/unnamed/part_008) -/

/-- State of the useTimer hook: the remaining seconds, the running and
expired flags, and a count of expiry-callback invocations (the model of
calling onExpireRef.current). -/
structure TimerState where
  timeLeft : Nat
  isRunning : Bool
  isExpired : Bool
  expireCount : Nat
deriving Repr, DecidableEq

/-- One one-second interval tick of useTimer (part_008 lines 26-36).  The
interval only exists while isRunning, so a tick of a non-running state is
the identity; at timeLeft at most 1 the tick zeroes the clock, stops the
interval, marks expired and invokes the expiry callback once; otherwise
it decrements the clock. -/
def timerTick (s : TimerState) : TimerState :=
  if ¬ s.isRunning then s
  else if s.timeLeft ≤ 1 then
    { timeLeft := 0, isRunning := false, isExpired := true,
      expireCount := s.expireCount + 1 }
  else { s with timeLeft := s.timeLeft - 1 }

/-- Initial state of useTimer for a duration and the autoStart flag
(part_008 lines 11-13). -/
def initTimer (duration : Nat) (autoStart : Bool) : TimerState :=
  { timeLeft := duration, isRunning := autoStart, isExpired := false,
    expireCount := 0 }

/-- The state useTimer halts in on expiry: zero remaining, stopped,
expired, one expiry-callback invocation. -/
def expiredTimerState : TimerState :=
  { timeLeft := 0, isRunning := false, isExpired := true,
    expireCount := 1 }

/-! ## Poll loop (usePoll, src/unnamed/part_007) -/

/-- State of the usePoll loop: how many times the callback has been
invoked and the errors logged by the catch inside tick. -/
structure PollState where
  invocations : Nat
  errorLog : List String
deriving Repr, DecidableEq

/-- One tick of usePoll (part_007 lines 24-30): invoke the callback
(modelled as a function of the invocation index that either succeeds or
rejects with an error message); a rejection is caught and logged and
never escapes the tick. -/
def pollTick (cb : Nat → Except String Unit) (s : PollState) : PollState :=
  match cb s.invocations with
  | Except.ok _ => { invocations := s.invocations + 1, errorLog := s.errorLog }
  | Except.error e =>
      { invocations := s.invocations + 1, errorLog := s.errorLog ++ [e] }

/-- The usePoll effect (part_007 lines 21-39) after a number of interval
periods: when disabled it returns immediately and never invokes the
callback; when enabled it runs one tick immediately and then one tick per
elapsed interval period. -/
def usePollRun (cb : Nat → Except String Unit) (enabled : Bool)
    (periods : Nat) : PollState :=
  if enabled then (pollTick cb)^[periods] (pollTick cb ⟨0, []⟩)
  else ⟨0, []⟩

/-! ## API client (src/frontend2/src/api/client.ts) -/

/-- Embeds getEventHeaders (client.ts lines 43-57): identity headers from
storage with the literal defaults, the request-scoped timestamp header
X-Event-Session, and the no-cache directives.  eventSession stands for
the per-request value of new Date().toISOString(). -/
def getEventHeaders (store : Store) (eventSession : String) :
    List (String × String) :=
  let nickname := jsOrStr (getStorageValue store "nickname") "Anonymous"
  let teamCode := jsOrStr (getStorageValue store "teamCode") "DEFAULT"
  [("Content-Type", "application/json"),
   ("X-Event-Mode", "true"),
   ("X-Nickname", nickname),
   ("X-Team-Code", teamCode),
   ("X-Event-Session", eventSession),
   ("Cache-Control", "no-cache"),
   ("Pragma", "no-cache")]

/-- JavaScript object-spread override for one header: a later key replaces
an earlier entry with the same key, otherwise it is appended. -/
def setHeader (hs : List (String × String)) (k v : String) :
    List (String × String) :=
  if hs.any (fun p => p.1 == k) then
    hs.map (fun p => if p.1 == k then (k, v) else p)
  else hs ++ [(k, v)]

/-- Spread of a second header object over a first, later keys overriding. -/
def mergeHeaders (base extra : List (String × String)) :
    List (String × String) :=
  extra.foldl (fun acc p => setHeader acc p.1 p.2) base

/-- Header lookup: the value sent for a header name, if any. -/
def lookupHeader (hs : List (String × String)) (k : String) : Option String :=
  (List.find? (fun p => p.1 == k) hs).map (fun p => p.2)

/-- Embeds the header construction of apiRequest (client.ts lines 70-74):
the event headers, then a literal Content-Type, then the caller's
options.headers, later spreads overriding earlier keys. -/
def requestHeaders (store : Store) (eventSession : String)
    (extra : List (String × String)) : List (String × String) :=
  mergeHeaders (setHeader (getEventHeaders store eventSession)
    "Content-Type" "application/json") extra

/-- The admin-scoped operations of the API client (client.ts lines
238-351), with the data each one sends. -/
inductive AdminOp
  | getDashboard
  | getLiveView (sessionId : String)
  | getAnalysisList
  | getSessionAnalysis (sessionId : String)
  | createSession (teamCode : String) (teamName : Option String)
  | deleteSession (sessionId : String)
  | startSession (sessionId : String)
  | getSnapshot
  | createRoom (teamCode : String) (teamName : String)
deriving Repr, DecidableEq

/-- A request handed to apiRequest: the endpoint, the HTTP method and the
options.headers the calling method supplies. -/
structure ApiCall where
  endpoint : String
  method : String
  extraHeaders : List (String × String)
deriving Repr, DecidableEq

/-- JavaScript truthiness of a nullable string: null and the empty string
are falsy, so the source guard of the form (not token) fires on both. -/
def jsTruthy (v : Option String) : Bool :=
  match v with
  | none => false
  | some s => s != ""

/-- Endpoint, method and options.headers of each admin operation, given
the token read from storage (the body sent is not modelled; it carries no
headers). -/
def adminOpCall (op : AdminOp) (token : String) : ApiCall :=
  match op with
  | AdminOp.getDashboard =>
      ⟨"/api/v1/admin/dashboard", "GET", [("X-Admin-Token", token)]⟩
  | AdminOp.getLiveView sessionId =>
      ⟨"/api/v1/admin/live/" ++ sessionId, "GET", [("X-Admin-Token", token)]⟩
  | AdminOp.getAnalysisList =>
      ⟨"/api/v1/admin/analysis", "GET", [("X-Admin-Token", token)]⟩
  | AdminOp.getSessionAnalysis sessionId =>
      ⟨"/api/v1/admin/analysis/" ++ sessionId, "GET",
       [("X-Admin-Token", token)]⟩
  | AdminOp.createSession _ _ =>
      ⟨"/api/v1/admin/sessions", "POST",
       [("X-Admin-Token", token), ("Content-Type", "application/json")]⟩
  | AdminOp.deleteSession sessionId =>
      ⟨"/api/v1/admin/sessions/" ++ sessionId, "DELETE",
       [("X-Admin-Token", token)]⟩
  | AdminOp.startSession sessionId =>
      ⟨"/api/v1/admin/sessions/" ++ sessionId ++ "/start", "POST",
       [("X-Admin-Token", token)]⟩
  | AdminOp.getSnapshot =>
      ⟨"/api/v1/admin/snapshot", "GET", [("X-Admin-Token", token)]⟩
  | AdminOp.createRoom _ _ =>
      ⟨"/api/v1/admin/rooms", "POST",
       [("X-Admin-Token", token), ("Content-Type", "application/json")]⟩

/-- Embeds every admin method of the API client (client.ts lines 238-351):
each first reads adminToken from localStorage and, when that value is
falsy, throws Admin token not found before calling apiRequest; otherwise
it hands the request to apiRequest. -/
def adminCall (store : Store) (op : AdminOp) : Except String ApiCall :=
  let token := getItem store "adminToken"
  if jsTruthy token then Except.ok (adminOpCall op (jsOrStr token ""))
  else Except.error "Admin token not found"

/-- The network requests an admin method issues: the single apiRequest
call when the token check passes, none when it throws. -/
def adminRequests (store : Store) (op : AdminOp) : List ApiCall :=
  match adminCall store op with
  | Except.ok c => [c]
  | Except.error _ => []

/-- Every operation the API client exposes (client.ts lines 98-362) with
the options.headers that the method passes to apiRequest: the non-admin
methods pass none, the admin methods pass the admin token (and for the
POST-with-body ones a literal Content-Type). -/
inductive ClientOp
  | health
  | sessionsJoin
  | sessionsComplete (sessionId : String)
  | storiesList (teamCode : String) (status : Option String)
  | storiesCreate (teamId title initialPrompt : String)
  | storiesGetTurns (storyId : String)
  | storiesAddSentence (storyId content : String)
  | storiesAddTwist (storyId : String)
  | storiesGetStatus (storyId : String)
  | storiesGetAnalysis (storyId : String)
  | leaderboardGetTeams
  | adminScoped (op : AdminOp) (token : String)
deriving Repr, DecidableEq

/-- The options.headers each client method supplies to apiRequest. -/
def clientExtraHeaders (op : ClientOp) : List (String × String) :=
  match op with
  | ClientOp.adminScoped a token => (adminOpCall a token).extraHeaders
  | _ => []

/-- Whether a client operation is admin-scoped. -/
def ClientOp.isAdmin (op : ClientOp) : Bool :=
  match op with
  | ClientOp.adminScoped _ _ => true
  | _ => false

/-- The full header object of the single fetch a client operation issues
(client.ts lines 70-83). -/
def clientRequestHeaders (store : Store) (eventSession : String)
    (op : ClientOp) : List (String × String) :=
  requestHeaders store eventSession (clientExtraHeaders op)

/-- A fetch response as apiRequest observes it: the HTTP status and
status text, and the result of parsing the body as JSON (ok with the
parsed payload, or the parse error). -/
structure HttpResponse where
  status : Nat
  statusText : String
  jsonBody : Except String String
deriving Repr

/-- response.ok of the fetch API: status in the 2xx range. -/
def responseOk (r : HttpResponse) : Bool :=
  200 ≤ r.status && r.status ≤ 299

/-- Embeds the response handling of apiRequest (client.ts lines 82-94):
a non-2xx response throws an error built from the status code and status
text before the body is parsed; a 2xx response yields the parsed body,
a parse failure propagating to the caller.  The catch block only logs
and rethrows, so the outcome is unchanged by it. -/
def apiResponse (r : HttpResponse) : Except String String :=
  if responseOk r then r.jsonBody
  else Except.error ("HTTP " ++ toString r.status ++ ": " ++ r.statusText)

/-- apiRequest issues exactly one fetch and never retries: the outcome
paired with the number of fetch invocations performed. -/
def apiRequestModel (r : HttpResponse) : Except String String × Nat :=
  (apiResponse r, 1)

/-! ## Session/turn view (src/frontend2/src/pages/StoryRoom.tsx) -/

/-- The StoryMessage display type (src/frontend2/src/hooks, types/game):
sender and kind are the literal strings user, twist, moderator or system;
author and systemType are optional. -/
structure StoryMessage where
  id : String
  text : String
  sender : String
  kind : String
  author : Option String
  timestamp : String
  systemType : Option String
deriving Repr, DecidableEq

/-- A server turn as the client reads it (the fields loadStory consults,
each optional because the backend variants differ). -/
structure Turn where
  id : String
  content : Option String
  text : Option String
  author_name : Option String
  author : Option String
  nickname : Option String
  user_nickname : Option String
  created_at : Option String
  timestamp : Option String
  is_twist : Option Bool
  turn_type : Option String
deriving Repr, DecidableEq

/-- Embeds the turn-to-message conversion of loadStory (StoryRoom.tsx
lines 143-162): a turn is an AI twist when is_twist is true or turn_type
is twist; the author falls back through the server name fields (twists
are always authored StoryTwister); now stands for the fallback timestamp
new Date().toISOString(). -/
def convertTurn (turn : Turn) (now : String) : StoryMessage :=
  let isAITwist := turn.is_twist == some true || turn.turn_type == some "twist"
  { id := turn.id,
    text := jsOrStr turn.content (jsOrStr turn.text ""),
    sender := if isAITwist then "twist" else "user",
    kind := if isAITwist then "twist" else "user",
    author := some (if isAITwist then "StoryTwister"
      else jsOrStr turn.author_name (jsOrStr turn.author
        (jsOrStr turn.nickname (jsOrStr turn.user_nickname "Unknown")))),
    timestamp := jsOrStr turn.created_at (jsOrStr turn.timestamp now),
    systemType := none }

/-- Embeds the setMessages(convertedMessages) step of a successful
loadStory refetch (StoryRoom.tsx line 164): the displayed list is
replaced wholesale by the conversion of the server turns; the previous
list is passed only to show that it is discarded. -/
def loadStorySetMessages (prev : List StoryMessage) (turns : List Turn)
    (now : String) : List StoryMessage :=
  let _ := prev
  turns.map (fun t => convertTurn t now)

/-- Embeds the optimistic message built by handleSendSentence
(StoryRoom.tsx lines 252-259): a locally generated temp- id, never a
server identity. -/
def mkOptimisticMessage (text author ts : String) : StoryMessage :=
  { id := "temp-" ++ ts, text := text, sender := "user", kind := "user",
    author := some author, timestamp := ts, systemType := none }

/-- Embeds addSystemMessage (StoryRoom.tsx lines 63-76): a locally
generated system- id, sender and kind system, no author. -/
def mkSystemMessage (text sysType ts : String) : StoryMessage :=
  { id := "system-" ++ ts, text := text, sender := "system",
    kind := "system", author := none, timestamp := ts,
    systemType := some sysType }

/-- The component state the send path touches: the displayed message list
and the input field. -/
structure RoomState where
  messages : List StoryMessage
  currentSentence : String
deriving Repr, DecidableEq

/-- Embeds the catch branch of handleSendSentence (StoryRoom.tsx lines
284-315) when the refetch succeeds.  messagesAtRender is the value of
the messages binding captured by the handler's closure at the render the
user submitted from: the optimistic append, the refetch and the 500 ms
timeout all run inside that closure, so the messageWasAdded check at
line 294 reads messagesAtRender, not the refetched state.  Steps: append
the optimistic message and clear the input (lines 261-262); the POST
rejects; await loadStory replaces the list with the converted server
turns; after 500 ms, when the closure list holds a message with the sent
text and author the success notice is appended, otherwise the optimistic
id is filtered out, the input is restored to the sent text and the
failure notice is appended. -/
def handleSendFailureReconcile (messagesAtRender : List StoryMessage)
    (turns : List Turn) (now trimmedMessage nickname ts : String) :
    RoomState :=
  let optimistic := mkOptimisticMessage trimmedMessage nickname ts
  let refetched := loadStorySetMessages (messagesAtRender ++ [optimistic])
    turns now
  let messageWasAdded := messagesAtRender.any
    (fun m => m.text == trimmedMessage && m.author == some nickname)
  if messageWasAdded then
    { messages := refetched ++
        [mkSystemMessage "Message added to the story!" "success" now],
      currentSentence := "" }
  else
    { messages := (refetched.filter (fun m => m.id != optimistic.id)) ++
        [mkSystemMessage "Failed to send message. Please try again."
          "error" now],
      currentSentence := trimmedMessage }

/-- The reconciliation the claim and the in-code comment describe, for
comparison: whether the just-sent text with the current author occurs
among the refetched turns. -/
def sentTextAmongTurns (turns : List Turn) (now trimmedMessage nickname :
    String) : Bool :=
  (turns.map (fun t => convertTurn t now)).any
    (fun m => m.text == trimmedMessage && m.author == some nickname)

/-- Sample server turn: an earlier user sentence by bob. -/
def bobTurn : Turn :=
  { id := "1", content := some "Once upon a time", text := none,
    author_name := some "bob", author := none, nickname := none,
    user_nickname := none, created_at := some "t0", timestamp := none,
    is_twist := some false, turn_type := none }

/-- Sample server turn: the just-sent sentence by alice, as the server
reports it after a send whose HTTP response was an error. -/
def dragonTurn : Turn :=
  { id := "42", content := some "A dragon appears", text := none,
    author_name := some "alice", author := none, nickname := none,
    user_nickname := none, created_at := some "t1", timestamp := none,
    is_twist := some false, turn_type := none }

/-- Sample displayed message: bob's sentence as rendered before the
send, the only entry of the render-time list. -/
def bobMessage : StoryMessage :=
  { id := "1", text := "Once upon a time", sender := "user",
    kind := "user", author := some "bob", timestamp := "t0",
    systemType := none }

/-! ## Theorems -/

/-- A running unpaused timer of n + 1 seconds reaches, after n + 1 ticks,
the halted expired state with one expiry-callback invocation. -/
theorem timerTick_countdown (n : Nat) :
    timerTick^[n + 1] (initTimer (n + 1) true) = expiredTimerState := by
  induction n with
  | zero => rfl
  | succ k ih =>
      rw [Function.iterate_succ_apply]
      have h1 : timerTick (initTimer (k + 1 + 1) true) =
          initTimer (k + 1) true := by
        simp [timerTick, initTimer]
      rw [h1, ih]

/-- The expired state is a fixed point of the tick: the interval is
halted, so no further decrement or callback invocation occurs. -/
theorem timerTick_halt :
    timerTick expiredTimerState = expiredTimerState := rfl

/-- Claim C2: for every positive duration D, a running unpaused useTimer,
after D one-second ticks (and any number k of further elapsed seconds),
reads zero remaining time, is expired and no longer running, has invoked
the expiry callback exactly once, and is halted: a further tick changes
nothing. -/
theorem useTimer_expires_once (D k : Nat) (hD : 0 < D) :
    timerTick^[D + k] (initTimer D true) = expiredTimerState ∧
    timerTick (timerTick^[D + k] (initTimer D true)) =
      timerTick^[D + k] (initTimer D true) := by
  obtain ⟨n, rfl⟩ : ∃ n, D = n + 1 := ⟨D - 1, by omega⟩
  have hrun : timerTick^[n + 1 + k] (initTimer (n + 1) true) =
      expiredTimerState := by
    rw [add_comm (n + 1) k, Function.iterate_add_apply,
      timerTick_countdown n, Function.iterate_fixed timerTick_halt]
  exact ⟨hrun, by rw [hrun, timerTick_halt]⟩

/-- Witness for Claim C2 at duration 3 with 2 extra elapsed seconds. -/
theorem useTimer_expires_once_witness :
    0 < 3 ∧
    (timerTick^[3 + 2] (initTimer 3 true) = expiredTimerState ∧
    timerTick (timerTick^[3 + 2] (initTimer 3 true)) =
      timerTick^[3 + 2] (initTimer 3 true)) :=
  ⟨by decide, useTimer_expires_once 3 2 (by decide)⟩

/-- Claim C4, counterexample: the single-space value is a non-empty
string, yet writing it and reading it back yields the empty sentinel
rather than the written string, because getStorageValue treats a
blank-after-trim value as absent. -/
theorem storage_roundtrip_blank_counterexample :
    " " ≠ "" ∧
    getStorageValue (setStorageValue [] "k" " ") "k" ≠ some " " := by
  constructor
  · decide
  · decide

/-- Claim C4 as amended: for every key and every value that is non-blank
after trimming, writing then reading the same key returns that same
string; and reading a key from an empty store returns the empty sentinel
none (the function is total, so no exception is possible). -/
theorem storage_roundtrip_nonblank (store : Store) (key value : String)
    (h : jsTrim value ≠ "") :
    getStorageValue (setStorageValue store key value) key = some value ∧
    (∀ k, getStorageValue ([] : Store) k = none) := by
  constructor
  · have hv : value ≠ "" := by
      intro he
      rw [he] at h
      exact h (by decide)
    simp [getStorageValue, setStorageValue, setItem, getItem, List.find?,
      hv, h]
  · intro k
    rfl

/-- Witness for Claim C4 as amended, at key k and value alice. -/
theorem storage_roundtrip_nonblank_witness :
    jsTrim "alice" ≠ "" ∧
    (getStorageValue (setStorageValue [] "k" "alice") "k" = some "alice" ∧
    (∀ k, getStorageValue ([] : Store) k = none)) :=
  ⟨by decide, storage_roundtrip_nonblank [] "k" "alice" (by decide)⟩

/-- Each poll tick performs exactly one callback invocation, whether the
callback succeeds or rejects. -/
theorem pollTick_invocations (cb : Nat → Except String Unit)
    (s : PollState) : (pollTick cb s).invocations = s.invocations + 1 := by
  cases h : cb s.invocations <;> simp [pollTick, h]

/-- Iterating the poll tick n times performs exactly n invocations. -/
theorem pollTick_iterate_invocations (cb : Nat → Except String Unit)
    (n : Nat) (s : PollState) :
    ((pollTick cb)^[n] s).invocations = s.invocations + n := by
  induction n generalizing s with
  | zero => simp
  | succ k ih =>
      rw [Function.iterate_succ_apply, ih, pollTick_invocations]
      omega

/-- A poll tick never removes an entry from the error log. -/
theorem pollTick_log_mono (cb : Nat → Except String Unit) (s : PollState)
    (e : String) (he : e ∈ s.errorLog) : e ∈ (pollTick cb s).errorLog := by
  cases h : cb s.invocations <;> simp [pollTick, h, he]

/-- Iterated poll ticks never remove an entry from the error log. -/
theorem pollTick_iterate_log_mono (cb : Nat → Except String Unit) (n : Nat)
    (s : PollState) (e : String) (he : e ∈ s.errorLog) :
    e ∈ ((pollTick cb)^[n] s).errorLog := by
  induction n generalizing s with
  | zero => simpa
  | succ k ih =>
      rw [Function.iterate_succ_apply]
      exact ih (pollTick cb s) (pollTick_log_mono cb s e he)

/-- When the callback of some tick inside an iterated run rejects, its
error message is in the final log: the rejection is caught and logged and
the remaining ticks still run. -/
theorem pollTick_iterate_log_of_error (cb : Nat → Except String Unit)
    (n : Nat) (s : PollState) (i : Nat) (e : String) (hi : i < n)
    (he : cb (s.invocations + i) = Except.error e) :
    e ∈ ((pollTick cb)^[n] s).errorLog := by
  induction n generalizing s i with
  | zero => omega
  | succ k ih =>
      rw [Function.iterate_succ_apply]
      cases i with
      | zero =>
          apply pollTick_iterate_log_mono
          rw [Nat.add_zero] at he
          simp [pollTick, he]
      | succ j =>
          have hj : j < k := by omega
          have he2 : cb ((pollTick cb s).invocations + j) =
              Except.error e := by
            rw [pollTick_invocations]
            have harith : s.invocations + 1 + j = s.invocations + (j + 1) :=
              by omega
            rw [harith]
            exact he
          exact ih (pollTick cb s) j hj he2

/-- An enabled poll run over n interval periods performs exactly n + 1
invocations: the immediate one plus one per period. -/
theorem usePollRun_true_invocations (cb : Nat → Except String Unit)
    (n : Nat) : (usePollRun cb true n).invocations = n + 1 := by
  simp only [usePollRun, if_pos]
  rw [pollTick_iterate_invocations, pollTick_invocations]
  show 0 + 1 + n = n + 1
  omega

/-- Claim C5: with enabled true, after n interval periods the callback
has been invoked n + 1 times (the immediate call plus one per tick),
hence at least n times; with enabled false it has been invoked zero
times. -/
theorem usePoll_invocation_count (cb : Nat → Except String Unit)
    (n : Nat) :
    (usePollRun cb true n).invocations = n + 1 ∧
    n ≤ (usePollRun cb true n).invocations ∧
    (usePollRun cb false n).invocations = 0 := by
  have h1 := usePollRun_true_invocations cb n
  refine ⟨h1, by omega, ?_⟩
  simp [usePollRun]

/-- Claim C6: if the callback of any single tick rejects, the error is
caught and logged (its message is in the final error log) and every
subsequent tick still runs: the run still performs all n + 1
invocations, so one failed tick never cancels the loop. -/
theorem usePoll_error_isolation (cb : Nat → Except String Unit)
    (n i : Nat) (e : String) (hi : i ≤ n)
    (he : cb i = Except.error e) :
    (usePollRun cb true n).invocations = n + 1 ∧
    e ∈ (usePollRun cb true n).errorLog := by
  refine ⟨usePollRun_true_invocations cb n, ?_⟩
  simp only [usePollRun, if_pos]
  cases i with
  | zero =>
      apply pollTick_iterate_log_mono
      simp [pollTick, he]
  | succ j =>
      have hj : j < n := by omega
      apply pollTick_iterate_log_of_error cb n (pollTick cb ⟨0, []⟩) j e hj
      rw [pollTick_invocations]
      have harith : ({ invocations := 0, errorLog := [] } :
          PollState).invocations + 1 + j = j + 1 := by
        show 0 + 1 + j = j + 1
        omega
      rw [harith]
      exact he

/-- Witness for Claim C6: a callback that rejects exactly on its second
invocation, run for two interval periods. -/
theorem usePoll_error_isolation_witness :
    1 ≤ 2 ∧
    (fun i => if i == 1 then (Except.error "boom" : Except String Unit)
      else Except.ok ()) 1 = Except.error "boom" ∧
    ((usePollRun (fun i => if i == 1 then Except.error "boom"
        else Except.ok ()) true 2).invocations = 2 + 1 ∧
      "boom" ∈ (usePollRun (fun i => if i == 1 then Except.error "boom"
        else Except.ok ()) true 2).errorLog) :=
  ⟨by decide, rfl,
    usePoll_error_isolation _ 2 1 "boom" (by decide) rfl⟩

/-- Claim C3: every admin-scoped API client operation, when no admin
token is present in storage, fails with the Admin token not found error
from the synchronous token check, and issues no network request. -/
theorem admin_call_requires_token (store : Store) (op : AdminOp)
    (h : getItem store "adminToken" = none) :
    adminCall store op = Except.error "Admin token not found" ∧
    adminRequests store op = [] := by
  have h1 : adminCall store op = Except.error "Admin token not found" := by
    simp [adminCall, h, jsTruthy]
  exact ⟨h1, by simp [adminRequests, h1]⟩

/-- Witness for Claim C3: a store holding only a nickname, on the
dashboard operation. -/
theorem admin_call_requires_token_witness :
    getItem [("nickname", "alice")] "adminToken" = none ∧
    (adminCall [("nickname", "alice")] AdminOp.getDashboard =
      Except.error "Admin token not found" ∧
    adminRequests [("nickname", "alice")] AdminOp.getDashboard = []) :=
  ⟨rfl, admin_call_requires_token [("nickname", "alice")]
    AdminOp.getDashboard rfl⟩

/-- Claim C8: a non-2xx HTTP response makes the API call fail with an
error carrying the status code and status text, and the client issues
exactly one fetch: there is no automatic retry. -/
theorem apiRequest_non2xx_error (r : HttpResponse)
    (h : responseOk r = false) :
    (apiRequestModel r).1 =
      Except.error ("HTTP " ++ toString r.status ++ ": " ++ r.statusText) ∧
    (apiRequestModel r).2 = 1 := by
  constructor
  · simp [apiRequestModel, apiResponse, h]
  · rfl

/-- Witness for Claim C8 at a 404 response. -/
theorem apiRequest_non2xx_error_witness :
    responseOk ⟨404, "Not Found", Except.ok "body"⟩ = false ∧
    ((apiRequestModel ⟨404, "Not Found", Except.ok "body"⟩).1 =
      Except.error ("HTTP " ++ toString 404 ++ ": " ++ "Not Found") ∧
    (apiRequestModel ⟨404, "Not Found", Except.ok "body"⟩).2 = 1) :=
  ⟨by decide, apiRequest_non2xx_error ⟨404, "Not Found", Except.ok "body"⟩
    (by decide)⟩

/-- When storage holds a non-blank value for a key, getStorageValue
returns it. -/
theorem getStorageValue_of_nonblank (store : Store) (k v : String)
    (h : getItem store k = some v) (hv : v ≠ "") (hb : jsTrim v ≠ "") :
    getStorageValue store k = some v := by
  simp [getStorageValue, h, hv, hb]

/-- When the stored value for a key is absent or blank, getStorageValue
returns the empty sentinel. -/
theorem getStorageValue_none_of_absent_or_blank (store : Store)
    (k : String)
    (h : getItem store k = none ∨
      ∃ s, getItem store k = some s ∧ jsTrim s = "") :
    getStorageValue store k = none := by
  rcases h with h | ⟨s, hs, hb⟩
  · simp [getStorageValue, h]
  · simp [getStorageValue, hs, hb]

/-- The options.headers of an admin method are the token header alone or
the token header with a literal Content-Type. -/
theorem adminOpCall_extraHeaders (a : AdminOp) (token : String) :
    (adminOpCall a token).extraHeaders = [("X-Admin-Token", token)] ∨
    (adminOpCall a token).extraHeaders =
      [("X-Admin-Token", token), ("Content-Type", "application/json")] := by
  cases a <;> simp [adminOpCall]

/-- Claim C7: with nickname alice and team code beta in storage, every
request the API client builds (admin-scoped or not) carries the headers
X-Nickname alice and X-Team-Code beta verbatim, the request-scoped
timestamp header X-Event-Session, and the no-cache directives. -/
theorem api_headers_identity (store : Store) (es : String) (op : ClientOp)
    (hn : getItem store "nickname" = some "alice")
    (ht : getItem store "teamCode" = some "beta") :
    lookupHeader (clientRequestHeaders store es op) "X-Nickname" =
      some "alice" ∧
    lookupHeader (clientRequestHeaders store es op) "X-Team-Code" =
      some "beta" ∧
    lookupHeader (clientRequestHeaders store es op) "X-Event-Session" =
      some es ∧
    lookupHeader (clientRequestHeaders store es op) "Cache-Control" =
      some "no-cache" ∧
    lookupHeader (clientRequestHeaders store es op) "Pragma" =
      some "no-cache" := by
  have hsn : getStorageValue store "nickname" = some "alice" :=
    getStorageValue_of_nonblank store "nickname" "alice" hn (by decide)
      (by decide)
  have hst : getStorageValue store "teamCode" = some "beta" :=
    getStorageValue_of_nonblank store "teamCode" "beta" ht (by decide)
      (by decide)
  have hev : getEventHeaders store es =
      [("Content-Type", "application/json"), ("X-Event-Mode", "true"),
       ("X-Nickname", "alice"), ("X-Team-Code", "beta"),
       ("X-Event-Session", es), ("Cache-Control", "no-cache"),
       ("Pragma", "no-cache")] := by
    simp [getEventHeaders, hsn, hst, jsOrStr]
  cases op
  case adminScoped a token =>
      rcases adminOpCall_extraHeaders a token with hx | hx <;>
        simp only [clientRequestHeaders, requestHeaders,
          clientExtraHeaders, hx, hev] <;>
        exact ⟨rfl, rfl, rfl, rfl, rfl⟩
  all_goals
    simp only [clientRequestHeaders, requestHeaders, clientExtraHeaders,
      hev]
  all_goals exact ⟨rfl, rfl, rfl, rfl, rfl⟩

/-- Witness for Claim C7 on the health operation. -/
theorem api_headers_identity_witness :
    getItem [("nickname", "alice"), ("teamCode", "beta")] "nickname" =
      some "alice" ∧
    getItem [("nickname", "alice"), ("teamCode", "beta")] "teamCode" =
      some "beta" ∧
    (lookupHeader (clientRequestHeaders
        [("nickname", "alice"), ("teamCode", "beta")] "T" ClientOp.health)
        "X-Nickname" = some "alice" ∧
    lookupHeader (clientRequestHeaders
        [("nickname", "alice"), ("teamCode", "beta")] "T" ClientOp.health)
        "X-Team-Code" = some "beta" ∧
    lookupHeader (clientRequestHeaders
        [("nickname", "alice"), ("teamCode", "beta")] "T" ClientOp.health)
        "X-Event-Session" = some "T" ∧
    lookupHeader (clientRequestHeaders
        [("nickname", "alice"), ("teamCode", "beta")] "T" ClientOp.health)
        "Cache-Control" = some "no-cache" ∧
    lookupHeader (clientRequestHeaders
        [("nickname", "alice"), ("teamCode", "beta")] "T" ClientOp.health)
        "Pragma" = some "no-cache") :=
  ⟨rfl, rfl, api_headers_identity
    [("nickname", "alice"), ("teamCode", "beta")] "T" ClientOp.health
    rfl rfl⟩

/-- Claim C10: for every non-admin API request, the two defaults hold
independently: an absent-or-blank stored nickname yields the literal
X-Nickname value Anonymous (whatever the team code holds), and an
absent-or-blank stored team code yields the literal X-Team-Code value
DEFAULT (whatever the nickname holds); and unconditionally both identity
headers are present on every such request. -/
theorem api_headers_defaults (op : ClientOp) (store : Store) (es : String)
    (hop : op.isAdmin = false) :
    ((getItem store "nickname" = none ∨
        ∃ s, getItem store "nickname" = some s ∧ jsTrim s = "") →
      lookupHeader (clientRequestHeaders store es op) "X-Nickname" =
        some "Anonymous") ∧
    ((getItem store "teamCode" = none ∨
        ∃ s, getItem store "teamCode" = some s ∧ jsTrim s = "") →
      lookupHeader (clientRequestHeaders store es op) "X-Team-Code" =
        some "DEFAULT") ∧
    (∃ v, lookupHeader (clientRequestHeaders store es op) "X-Nickname" =
      some v) ∧
    (∃ w, lookupHeader (clientRequestHeaders store es op) "X-Team-Code" =
      some w) := by
  have hn1 : lookupHeader (clientRequestHeaders store es op)
      "X-Nickname" =
      some (jsOrStr (getStorageValue store "nickname") "Anonymous") := by
    cases op
    case adminScoped a token => simp [ClientOp.isAdmin] at hop
    all_goals rfl
  have ht1 : lookupHeader (clientRequestHeaders store es op)
      "X-Team-Code" =
      some (jsOrStr (getStorageValue store "teamCode") "DEFAULT") := by
    cases op
    case adminScoped a token => simp [ClientOp.isAdmin] at hop
    all_goals rfl
  refine ⟨?_, ?_, ⟨_, hn1⟩, ⟨_, ht1⟩⟩
  · intro h
    rw [hn1, getStorageValue_none_of_absent_or_blank store "nickname" h]
    rfl
  · intro h
    rw [ht1, getStorageValue_none_of_absent_or_blank store "teamCode" h]
    rfl

/-- Witness for Claim C10 on the health operation, at the independent
case the claim covers: the nickname is absent while a team code is set,
and the nickname header still defaults to Anonymous while the team-code
header is present. -/
theorem api_headers_defaults_witness :
    ClientOp.isAdmin ClientOp.health = false ∧
    (getItem [("teamCode", "beta")] "nickname" = none ∨
      ∃ s, getItem [("teamCode", "beta")] "nickname" = some s ∧
        jsTrim s = "") ∧
    lookupHeader (clientRequestHeaders [("teamCode", "beta")] "T"
      ClientOp.health) "X-Nickname" = some "Anonymous" ∧
    (∃ w, lookupHeader (clientRequestHeaders [("teamCode", "beta")] "T"
      ClientOp.health) "X-Team-Code" = some w) :=
  ⟨rfl, Or.inl rfl,
    (api_headers_defaults ClientOp.health [("teamCode", "beta")] "T"
      rfl).1 (Or.inl rfl),
    (api_headers_defaults ClientOp.health [("teamCode", "beta")] "T"
      rfl).2.2.2⟩

/-- Claim C9: a successful refetch replaces the displayed list wholesale
by the server-derived turn list, independently of whatever the list held
before; every message in the replaced list is the conversion of a server
turn and carries that turn's id, and none is a system message; the
optimistic and system pseudo-messages themselves carry only locally
generated temp- and system- ids, never a server identity.  None of the
embedded operations touches the storage adapter, so pseudo-messages are
never persisted. -/
theorem refetch_replaces_pseudo_messages (prevA prevB : List StoryMessage)
    (turns : List Turn) (now : String) :
    loadStorySetMessages prevA turns now =
      loadStorySetMessages prevB turns now ∧
    (∀ m ∈ loadStorySetMessages prevA turns now,
      (∃ t ∈ turns, m = convertTurn t now ∧ m.id = t.id) ∧
      m.sender ≠ "system" ∧ m.kind ≠ "system") ∧
    (∀ text author ts,
      (mkOptimisticMessage text author ts).id = "temp-" ++ ts) ∧
    (∀ text sysType ts,
      (mkSystemMessage text sysType ts).id = "system-" ++ ts ∧
      (mkSystemMessage text sysType ts).sender = "system") := by
  refine ⟨rfl, ?_, fun _ _ _ => rfl, fun _ _ _ => ⟨rfl, rfl⟩⟩
  intro m hm
  simp only [loadStorySetMessages, List.mem_map] at hm
  obtain ⟨t, ht, rfl⟩ := hm
  refine ⟨⟨t, ht, rfl, rfl⟩, ?_, ?_⟩ <;>
    cases hc : (t.is_twist == some true || t.turn_type == some "twist") <;>
    simp [convertTurn, hc]

/-- Witness for Claim C9 on a one-turn refetch over a list holding a
system pseudo-message. -/
theorem refetch_replaces_pseudo_messages_witness :
    loadStorySetMessages [mkSystemMessage "old" "info" "t9"] [bobTurn]
      "T" = loadStorySetMessages [] [bobTurn] "T" ∧
    ((∃ t ∈ [bobTurn], convertTurn bobTurn "T" = convertTurn t "T" ∧
        (convertTurn bobTurn "T").id = t.id) ∧
      (convertTurn bobTurn "T").sender ≠ "system" ∧
      (convertTurn bobTurn "T").kind ≠ "system") ∧
    (mkOptimisticMessage "hi" "alice" "9").id = "temp-" ++ "9" ∧
    ((mkSystemMessage "x" "info" "9").id = "system-" ++ "9" ∧
      (mkSystemMessage "x" "info" "9").sender = "system") := by
  have h := refetch_replaces_pseudo_messages
    [mkSystemMessage "old" "info" "t9"] [] [bobTurn] "T"
  exact ⟨h.1,
    h.2.1 (convertTurn bobTurn "T") (by simp [loadStorySetMessages]),
    h.2.2.1 "hi" "alice" "9", h.2.2.2 "x" "info" "9"⟩

/-- Claim C1, code evaluation at the failing input: the user (nickname
alice, render-time list holding only bob's message) sends the text
A dragon appears; the POST rejects but the server records the turn, so
the refetched turns contain that exact text under alice's name (first
conjunct, the condition the claim and the in-code comment reconcile on).
The code nevertheless takes the failure branch: the input field is
restored to the sent text, the failure notice is emitted, and the
optimistic placeholder is not retained, because the 500 ms check reads
the closure-captured render-time list instead of the refetched turns. -/
theorem send_reconcile_uses_stale_list :
    sentTextAmongTurns [bobTurn, dragonTurn] "T" "A dragon appears"
      "alice" = true ∧
    (handleSendFailureReconcile [bobMessage] [bobTurn, dragonTurn] "T"
      "A dragon appears" "alice" "99").currentSentence =
      "A dragon appears" ∧
    (handleSendFailureReconcile [bobMessage] [bobTurn, dragonTurn] "T"
      "A dragon appears" "alice" "99").messages.any
      (fun m => m.systemType == some "error") = true ∧
    (handleSendFailureReconcile [bobMessage] [bobTurn, dragonTurn] "T"
      "A dragon appears" "alice" "99").messages.all
      (fun m => m.id != "temp-99") = true := by
  refine ⟨?_, ?_, ?_, ?_⟩ <;> decide

end StoryTwister
